import Mathlib

/-!
Verification of the UDP beacon discovery module (`src/beacon.rs`).

The module's pure core is embedded shallowly:
* bytes are `Nat` values; Rust's `as u8` / `as u16` / `as u32` casts appear as
  explicit `% 256` / `% 65536` / `% 4294967296`;
* `SocketAddr` is an inductive with the fields the code touches
  (IPv4 octets and port; IPv6 segments, port, flow-info, scope-id);
* Rust slice indexing `buffer[i]`, which panics when `i` is out of bounds,
  is modelled with `List.getElem?` in the `Option` monad: an out-of-bounds
  access makes the whole computation `none` (the panic), while a normal
  return value `v` appears as `some v`;
* the listener loop of `BroadcastAcceptor::accept` and the receiver task of
  `seek_peers` are modelled as functions over the list of datagrams they
  would receive, with the 20-byte (resp. 2-byte) receive buffer threaded
  explicitly, since `recv_from` only overwrites a prefix of the buffer.
-/

namespace Beacon

/-- `GUID_SIZE` from the source: a GUID is 16 bytes. -/
def GUID_SIZE : Nat := 16

/-- `MAGIC_SIZE` from the source. -/
def MAGIC_SIZE : Nat := 4

/-- `MAGIC`: the bytes of `"maid"` (`m` = 109, `a` = 97, `i` = 105, `d` = 100). -/
def MAGIC : List Nat := [109, 97, 105, 100]

/-- A socket address as the code uses it: either IPv4 (four octets and a
port) or IPv6 (eight 16-bit segments, a port, a 32-bit flow-info and a
32-bit scope-id). -/
inductive SocketAddr where
  | v4 (o1 o2 o3 o4 : Nat) (port : Nat)
  | v6 (s0 s1 s2 s3 s4 s5 s6 s7 : Nat) (port : Nat) (flowinfo : Nat)
       (scope_id : Nat)
  deriving DecidableEq, Repr

/-- The well-formedness bounds imposed by the Rust types: octets are `u8`,
segments and ports `u16`, flow-info and scope-id `u32`. -/
def representable : SocketAddr → Prop
  | .v4 o1 o2 o3 o4 port =>
      o1 < 256 ∧ o2 < 256 ∧ o3 < 256 ∧ o4 < 256 ∧ port < 65536
  | .v6 s0 s1 s2 s3 s4 s5 s6 s7 port flowinfo scope_id =>
      s0 < 65536 ∧ s1 < 65536 ∧ s2 < 65536 ∧ s3 < 65536 ∧
      s4 < 65536 ∧ s5 < 65536 ∧ s6 < 65536 ∧ s7 < 65536 ∧
      port < 65536 ∧ flowinfo < 4294967296 ∧ scope_id < 4294967296

instance : DecidablePred representable := by
  intro a
  cases a <;> exact inferInstanceAs (Decidable (_ ∧ _))

/-- The port field of a socket address. -/
def port_of : SocketAddr → Nat
  | .v4 _ _ _ _ port => port
  | .v6 _ _ _ _ _ _ _ _ port _ _ => port

/-- The offset of the port field inside the 27-byte wire encoding: bytes
5–6 for IPv4, bytes 17–18 for IPv6. -/
def port_offset : SocketAddr → Nat
  | .v4 _ _ _ _ _ => 5
  | .v6 _ _ _ _ _ _ _ _ _ _ _ => 17

/-- `serialise_address` from the source.  The Rust code zero-initialises a
27-byte buffer and then writes the populated positions; the lists below are
that buffer with every position written out, the untouched positions kept
at `0`.  Each `as u8` cast is a `% 256`; `x >> n` on a `uN` is `x / 2 ^ n`. -/
def serialise_address : SocketAddr → List Nat
  | .v4 o1 o2 o3 o4 port =>
      -- byte 0 left as 0 to indicate IPv4; bytes 1-4 the octets;
      -- bytes 5-6 the port big-endian; bytes 7-26 untouched (zero).
      [0, o1, o2, o3, o4, (port / 256) % 256, port % 256,
       0, 0, 0, 0, 0, 0, 0, 0, 0, 0, 0, 0, 0, 0, 0, 0, 0, 0, 0, 0]
  | .v6 s0 s1 s2 s3 s4 s5 s6 s7 port flowinfo scope_id =>
      -- byte 0 set to 1 to indicate IPv6; bytes 2i+1, 2i+2 the segments
      -- big-endian; bytes 17-18 the port; 19-22 flow-info; 23-26 scope-id.
      [1,
       (s0 / 256) % 256, s0 % 256, (s1 / 256) % 256, s1 % 256,
       (s2 / 256) % 256, s2 % 256, (s3 / 256) % 256, s3 % 256,
       (s4 / 256) % 256, s4 % 256, (s5 / 256) % 256, s5 % 256,
       (s6 / 256) % 256, s6 % 256, (s7 / 256) % 256, s7 % 256,
       (port / 256) % 256, port % 256,
       (flowinfo / 16777216) % 256, (flowinfo / 65536) % 256,
       (flowinfo / 256) % 256, flowinfo % 256,
       (scope_id / 16777216) % 256, (scope_id / 65536) % 256,
       (scope_id / 256) % 256, scope_id % 256]

/-- `parse_address` from the source.  The argument is a Rust slice `&[u8]`
of arbitrary length; Rust's `buffer[i]` panics when `i` is out of bounds,
so the outer `none` is that panic, `some none` is Rust's `None` return
(unknown family selector), and `some (some a)` is `Some(a)`.  The IPv4
branch reads indices 0-6 and the IPv6 branch indices 0-26, so the branch
panics exactly when the buffer is shorter than 7 (resp. 27) bytes; with
the length established, each `buffer.getD i 0` is the source's
`buffer[i]`.  Arithmetic on `u16`/`u32` carries its wrap-around modulus. -/
def parse_address (buffer : List Nat) : Option (Option SocketAddr) :=
  match buffer[0]? with
  | none => none
  | some 0 =>
      if 7 ≤ buffer.length then
        let port := (buffer.getD 5 0 * 256 + buffer.getD 6 0) % 65536
        some (some (.v4 (buffer.getD 1 0) (buffer.getD 2 0)
          (buffer.getD 3 0) (buffer.getD 4 0) port))
      else none
  | some 1 =>
      if 27 ≤ buffer.length then
        -- segments[i] = ((buffer[2i+1] as u16) << 8) + buffer[2i+2]
        let seg := fun i =>
          (buffer.getD (2 * i + 1) 0 * 256 + buffer.getD (2 * i + 2) 0) % 65536
        let port := (buffer.getD 17 0 * 256 + buffer.getD 18 0) % 65536
        let flowinfo :=
          (buffer.getD 19 0 * 16777216 + buffer.getD 20 0 * 65536 +
           buffer.getD 21 0 * 256 + buffer.getD 22 0) % 4294967296
        let scope_id :=
          (buffer.getD 23 0 * 16777216 + buffer.getD 24 0 * 65536 +
           buffer.getD 25 0 * 256 + buffer.getD 26 0) % 4294967296
        some (some (.v6 (seg 0) (seg 1) (seg 2) (seg 3) (seg 4) (seg 5)
          (seg 6) (seg 7) port flowinfo scope_id))
      else none
  | some _ => some none

/-- `serialise_port` from the source: `[(port & 0xff) as u8, (port >> 8) as u8]`,
the low byte first. -/
def serialise_port (port : Nat) : List Nat :=
  [port % 256, (port / 256) % 256]

/-- `parse_port` from the source: `(data[0] as u16) + ((data[1] as u16) << 8)`
on a fixed 2-byte array, with the result's `u16` modulus explicit. -/
def parse_port (data : List Nat) : Nat :=
  (data.getD 0 0 + data.getD 1 0 * 256) % 65536

/-- A UDP datagram as delivered to `recv_from`: its payload bytes and its
source address. -/
structure Datagram where
  payload : List Nat
  source : SocketAddr
  deriving DecidableEq, Repr

/-- The effect of `recv_from(&mut buffer)` on a reusable buffer: the first
`min payload.length buffer.length` bytes are overwritten with the datagram,
the rest of the buffer keeps its previous contents. -/
def recv_into (buffer payload : List Nat) : List Nat :=
  payload.take buffer.length ++ buffer.drop (min payload.length buffer.length)

/-- The beacon-listener loop of `BroadcastAcceptor::accept` (`run_listener`
in the source), as a function of the sequence of datagrams it receives.
`guid` is the instance's own GUID, `tcp_port` the transport port published
through the handoff channel, `buffer` the current contents of the reused
20-byte receive buffer (`vec![0u8; 20]` initially).  Each iteration
receives one datagram into the buffer; if bytes 0-3 differ from `MAGIC`
it continues, if bytes 4-19 equal `guid` it continues, otherwise it sends
`serialise_port tcp_port` back to the datagram's source and breaks.  The
result is the reply sent, if any: `none` means the loop is still blocked
waiting for further datagrams and no reply was ever sent. -/
def run_listener (guid : List Nat) (tcp_port : Nat) (buffer : List Nat) :
    List Datagram → Option (List Nat × SocketAddr)
  | [] => none
  | d :: rest =>
      let buf := recv_into buffer d.payload
      if buf.take 4 ≠ MAGIC then run_listener guid tcp_port buf rest
      else if (buf.drop 4).take 16 = guid then run_listener guid tcp_port buf rest
      else some (serialise_port tcp_port, d.source)

/-- The ping packet built by `seek_peers`: the magic bytes followed by
`guid_to_avoid.unwrap_or([0; GUID_SIZE])`. -/
def build_ping (guid_to_avoid : Option (List Nat)) : List Nat :=
  MAGIC ++ guid_to_avoid.getD (List.replicate GUID_SIZE 0)

/-- `SocketAddr::new(source.ip(), his_port)`: the source address with its
port replaced. -/
def set_port : SocketAddr → Nat → SocketAddr
  | .v4 o1 o2 o3 o4 _, p => .v4 o1 o2 o3 o4 p
  | .v6 s0 s1 s2 s3 s4 s5 s6 s7 _ fl sc, p => .v6 s0 s1 s2 s3 s4 s5 s6 s7 p fl sc

/-- The result a `seek_peers` call collects, as a function of the sequence
of reply datagrams that reach its socket.  The receiver task (`runner` in
the source) performs exactly one blocking `recv_from` into a zeroed 2-byte
buffer, decodes the port, pairs it with the reply's source IP and sends
that one endpoint to the result channel; with no reply it stays blocked
and sends nothing.  The caller then drains the channel without blocking,
so the returned collection is exactly the endpoints the receiver sent. -/
def seek_collected (replies : List Datagram) : List SocketAddr :=
  match replies with
  | [] => []
  | d :: _ => [set_port d.source (parse_port (recv_into [0, 0] d.payload))]

/-! ### Helper lemmas -/

/-- `recv_from` never changes the size of the receive buffer, so the
listener's buffer keeps its initial length 20 across iterations. -/
theorem recv_into_length (buffer payload : List Nat) :
    (recv_into buffer payload).length = buffer.length := by
  simp only [recv_into, List.length_append, List.length_take, List.length_drop]
  omega

/-- When the datagram carries at least 4 bytes, the first 4 bytes of the
20-byte receive buffer after `recv_from` are the datagram's first 4 bytes. -/
theorem recv_into_take_four (buffer payload : List Nat)
    (hbuf : buffer.length = 20) (h : 4 ≤ payload.length) :
    (recv_into buffer payload).take 4 = payload.take 4 := by
  have h4 : 4 ≤ (payload.take buffer.length).length := by
    rw [List.length_take]; omega
  rw [recv_into, List.take_append_of_le_length h4, List.take_take]
  congr 1
  omega

/-- When the datagram carries at least 20 bytes, bytes 4–19 of the
20-byte receive buffer after `recv_from` are the datagram's bytes 4–19. -/
theorem recv_into_guid_slice (buffer payload : List Nat)
    (hbuf : buffer.length = 20) (h : 20 ≤ payload.length) :
    ((recv_into buffer payload).drop 4).take 16 = (payload.drop 4).take 16 := by
  have h4 : 4 ≤ (payload.take buffer.length).length := by
    rw [List.length_take]; omega
  rw [recv_into, List.drop_append_of_le_length h4, List.drop_take]
  have h16 : 16 ≤ ((payload.drop 4).take (buffer.length - 4)).length := by
    rw [List.length_take, List.length_drop]; omega
  rw [List.take_append_of_le_length h16, List.take_take]
  congr 1
  omega

/-! ### Claim theorems -/

/-- C1: for every representable socket address `a` (IPv4 or IPv6, including
IPv6 addresses with non-zero flow-info and scope-id), `parse_address`
applied to the 27-byte result of `serialise_address a` returns `Some a`. -/
theorem parse_address_serialise_address_roundtrip (a : SocketAddr)
    (h : representable a) :
    parse_address (serialise_address a) = some (some a) := by
  cases a with
  | v4 o1 o2 o3 o4 port =>
      obtain ⟨h1, h2, h3, h4, hp⟩ := h
      simp only [serialise_address, parse_address, List.getElem?_cons_zero,
        List.length_cons, List.length_nil, List.getD_cons_zero,
        List.getD_cons_succ]
      norm_num
      omega
  | v6 s0 s1 s2 s3 s4 s5 s6 s7 port flowinfo scope_id =>
      obtain ⟨h0, h1, h2, h3, h4, h5, h6, h7, hp, hf, hs⟩ := h
      simp only [serialise_address, parse_address, List.getElem?_cons_zero,
        List.length_cons, List.length_nil, List.getD_cons_zero,
        List.getD_cons_succ]
      norm_num
      omega

/-- C1 witness: the roundtrip at a concrete IPv6 address with non-zero
flow-info and scope-id. -/
theorem parse_address_serialise_address_roundtrip_witness :
    representable (.v6 1 2 3 65535 5 6 7 8 443 123456789 42) ∧
    parse_address (serialise_address (.v6 1 2 3 65535 5 6 7 8 443 123456789 42)) =
      some (some (.v6 1 2 3 65535 5 6 7 8 443 123456789 42)) :=
  ⟨by decide, parse_address_serialise_address_roundtrip _ (by decide)⟩

/-- C2 counterexample: the claim that every buffer shorter than 27 bytes
makes `parse_address` fail is false — the code performs no length
validation, and the 7-byte buffer `[0, 1, 2, 3, 4, 5, 6]` parses
successfully as the IPv4 address `1.2.3.4:1286`. -/
theorem parse_address_short_buffer_counterexample :
    ([0, 1, 2, 3, 4, 5, 6] : List Nat).length < 27 ∧
    parse_address [0, 1, 2, 3, 4, 5, 6] = some (some (.v4 1 2 3 4 1286)) := by
  decide

/-- C2 (amended): `parse_address` performs no explicit length validation.
On a buffer shorter than 27 bytes it fails — with an index-out-of-bounds
panic, modelled as the outer `none`, never an out-of-bounds read — exactly
when a byte the selected branch needs is missing: the empty buffer, family
selector 0 with fewer than 7 bytes, or family selector 1; with selector 0
and at least 7 bytes it parses successfully despite the short buffer. -/
theorem parse_address_short_buffer_behaviour (b : List Nat)
    (hshort : b.length < 27) :
    (b = [] → parse_address b = none) ∧
    (b[0]? = some 0 → b.length < 7 → parse_address b = none) ∧
    (b[0]? = some 1 → parse_address b = none) ∧
    (b[0]? = some 0 → 7 ≤ b.length → ∃ a, parse_address b = some (some a)) := by
  refine ⟨?_, ?_, ?_, ?_⟩
  · rintro rfl; rfl
  · intro h0 hlen
    cases b with
    | nil => simp at h0
    | cons hd tl =>
        simp only [List.getElem?_cons_zero, Option.some.injEq] at h0
        subst h0
        simp only [parse_address, List.getElem?_cons_zero]
        have hn : ¬ 7 ≤ (0 :: tl : List Nat).length := by
          simp only [List.length_cons] at hlen ⊢
          omega
        rw [if_neg hn]
  · intro h0
    cases b with
    | nil => simp at h0
    | cons hd tl =>
        simp only [List.getElem?_cons_zero, Option.some.injEq] at h0
        subst h0
        simp only [parse_address, List.getElem?_cons_zero]
        have hn : ¬ 27 ≤ (1 :: tl : List Nat).length := by
          simp only [List.length_cons] at hshort ⊢
          omega
        rw [if_neg hn]
  · intro h0 hlen
    cases b with
    | nil => simp at h0
    | cons hd tl =>
        simp only [List.getElem?_cons_zero, Option.some.injEq] at h0
        subst h0
        simp only [parse_address, List.getElem?_cons_zero]
        rw [if_pos hlen]
        exact ⟨_, rfl⟩

/-- C2 witness: the amended statement instantiated at the 1-byte buffer
`[1]`, where the IPv6 selector panics for lack of bytes 1–26. -/
theorem parse_address_short_buffer_behaviour_witness :
    (([1] : List Nat) = [] → parse_address [1] = none) ∧
    (([1] : List Nat)[0]? = some 0 → ([1] : List Nat).length < 7 →
      parse_address [1] = none) ∧
    (([1] : List Nat)[0]? = some 1 → parse_address [1] = none) ∧
    (([1] : List Nat)[0]? = some 0 → 7 ≤ ([1] : List Nat).length →
      ∃ a, parse_address [1] = some (some a)) :=
  parse_address_short_buffer_behaviour [1] (by decide)

/-- C3: for every buffer of sufficient length whose byte 0 is neither 0
nor 1, `parse_address` returns Rust's `None` (`some none` here): an
ordinary outcome, not a panic. -/
theorem parse_address_unknown_selector (b : List Nat) (v : Nat)
    (hlen : 27 ≤ b.length) (h0 : b[0]? = some v) (hv0 : v ≠ 0) (hv1 : v ≠ 1) :
    parse_address b = some none := by
  cases b with
  | nil => simp at h0
  | cons hd tl =>
      simp only [List.getElem?_cons_zero, Option.some.injEq] at h0
      subst h0
      obtain ⟨k, rfl⟩ : ∃ k, hd = k + 2 := ⟨hd - 2, by omega⟩
      simp [parse_address]

/-- C3 witness: a 27-byte buffer with selector byte 2. -/
theorem parse_address_unknown_selector_witness :
    27 ≤ (2 :: List.replicate 26 7 : List Nat).length ∧
    (2 :: List.replicate 26 7 : List Nat)[0]? = some 2 ∧
    parse_address (2 :: List.replicate 26 7) = some none :=
  ⟨by decide, by decide,
   parse_address_unknown_selector _ 2 (by decide) (by decide) (by decide) (by decide)⟩

/-- C4: for every 16-bit port value `p`, `serialise_port p` is the 2-byte
little-endian encoding (low byte first) and `parse_port (serialise_port p) = p`. -/
theorem parse_port_serialise_port_roundtrip (p : Nat) (hp : p < 65536) :
    serialise_port p = [p % 256, p / 256] ∧
    parse_port (serialise_port p) = p := by
  constructor
  · simp only [serialise_port, List.cons.injEq, and_true, true_and]
    omega
  · simp only [serialise_port, parse_port, List.getD_cons_zero,
      List.getD_cons_succ]
    omega

/-- C4 witness: the roundtrip and layout at port 43981 (`0xABCD`). -/
theorem parse_port_serialise_port_roundtrip_witness :
    serialise_port 43981 = [43981 % 256, 43981 / 256] ∧
    parse_port (serialise_port 43981) = 43981 :=
  parse_port_serialise_port_roundtrip 43981 (by decide)

/-- C5: the port field inside the 27-byte address encoding is big-endian
(high byte at the lower offset — byte 5 for IPv4, byte 17 for IPv6), while
the standalone 2-byte reply encoding `serialise_port` is little-endian, so
the two encodings of the same port value are byte-reversed. -/
theorem port_field_endianness (a : SocketAddr) (h : representable a) :
    [(serialise_address a).getD (port_offset a) 0,
     (serialise_address a).getD (port_offset a + 1) 0] =
      [port_of a / 256, port_of a % 256] ∧
    serialise_port (port_of a) = [port_of a % 256, port_of a / 256] ∧
    [(serialise_address a).getD (port_offset a) 0,
     (serialise_address a).getD (port_offset a + 1) 0] =
      (serialise_port (port_of a)).reverse := by
  cases a with
  | v4 o1 o2 o3 o4 port =>
      obtain ⟨-, -, -, -, hp⟩ := h
      simp only [serialise_address, serialise_port, port_of, port_offset,
        List.getD_cons_zero, List.getD_cons_succ, List.reverse_cons,
        List.reverse_nil, List.nil_append, List.cons_append,
        List.cons.injEq, and_true, true_and]
      omega
  | v6 s0 s1 s2 s3 s4 s5 s6 s7 port flowinfo scope_id =>
      obtain ⟨-, -, -, -, -, -, -, -, hp, -, -⟩ := h
      simp only [serialise_address, serialise_port, port_of, port_offset,
        List.getD_cons_zero, List.getD_cons_succ, List.reverse_cons,
        List.reverse_nil, List.nil_append, List.cons_append,
        List.cons.injEq, and_true, true_and]
      omega

/-- C5 witness: the two encodings of port 43981 inside and outside the
address encoding of `10.1.2.3:43981`. -/
theorem port_field_endianness_witness :
    representable (.v4 10 1 2 3 43981) ∧
    ([(serialise_address (.v4 10 1 2 3 43981)).getD
        (port_offset (.v4 10 1 2 3 43981)) 0,
      (serialise_address (.v4 10 1 2 3 43981)).getD
        (port_offset (.v4 10 1 2 3 43981) + 1) 0] =
       [port_of (.v4 10 1 2 3 43981) / 256, port_of (.v4 10 1 2 3 43981) % 256] ∧
     serialise_port (port_of (.v4 10 1 2 3 43981)) =
       [port_of (.v4 10 1 2 3 43981) % 256, port_of (.v4 10 1 2 3 43981) / 256] ∧
     [(serialise_address (.v4 10 1 2 3 43981)).getD
        (port_offset (.v4 10 1 2 3 43981)) 0,
      (serialise_address (.v4 10 1 2 3 43981)).getD
        (port_offset (.v4 10 1 2 3 43981) + 1) 0] =
       (serialise_port (port_of (.v4 10 1 2 3 43981))).reverse) :=
  ⟨by decide, port_field_endianness _ (by decide)⟩

/-- C6: during the listener loop of `accept`, a received ping datagram
whose embedded 16-byte GUID equals the accepting instance's own GUID never
elicits a reply: the loop discards it and continues with the remaining
datagrams (the receive buffer keeping the ping's bytes). -/
theorem listener_discards_own_guid_ping (guid : List Nat) (tcp_port : Nat)
    (buffer : List Nat) (d : Datagram) (rest : List Datagram)
    (hbuf : buffer.length = 20) (hlen : 20 ≤ d.payload.length)
    (hmagic : d.payload.take 4 = MAGIC)
    (hguid : (d.payload.drop 4).take 16 = guid) :
    run_listener guid tcp_port buffer (d :: rest) =
      run_listener guid tcp_port (recv_into buffer d.payload) rest := by
  have hm : (recv_into buffer d.payload).take 4 = MAGIC := by
    rw [recv_into_take_four _ _ hbuf (by omega), hmagic]
  have hg : ((recv_into buffer d.payload).drop 4).take 16 = guid := by
    rw [recv_into_guid_slice _ _ hbuf hlen, hguid]
  simp [run_listener, hm, hg]

/-- C6 witness: a fresh listener with GUID `[1, …, 1]` receiving its own
ping discards it and terminates no differently from receiving nothing. -/
theorem listener_discards_own_guid_ping_witness :
    (List.replicate 20 0 : List Nat).length = 20 ∧
    20 ≤ (Datagram.mk (MAGIC ++ List.replicate 16 1)
      (.v4 10 0 0 1 9000)).payload.length ∧
    (Datagram.mk (MAGIC ++ List.replicate 16 1)
      (.v4 10 0 0 1 9000)).payload.take 4 = MAGIC ∧
    ((Datagram.mk (MAGIC ++ List.replicate 16 1)
      (.v4 10 0 0 1 9000)).payload.drop 4).take 16 = List.replicate 16 1 ∧
    run_listener (List.replicate 16 1) 5000 (List.replicate 20 0)
      [Datagram.mk (MAGIC ++ List.replicate 16 1) (.v4 10 0 0 1 9000)] =
      run_listener (List.replicate 16 1) 5000
        (recv_into (List.replicate 20 0) (MAGIC ++ List.replicate 16 1)) [] :=
  ⟨by decide, by decide, by decide, by decide,
   listener_discards_own_guid_ping _ _ _ _ _ (by decide) (by decide)
     (by decide) (by decide)⟩

/-- C7 counterexample: the claim that a datagram shorter than the 20-byte
minimum ping length elicits no reply is false — the listener ignores the
received size, so a bare 4-byte `"maid"` datagram is completed by the
residual buffer contents (initially zeros), passes both checks when the
listener's GUID is non-zero, and is answered with the encoded TCP port. -/
theorem listener_short_datagram_counterexample :
    MAGIC.length < 20 ∧
    run_listener (List.replicate 16 1) 5000 (List.replicate 20 0)
      [Datagram.mk MAGIC (.v4 10 0 0 1 9000)] =
      some (serialise_port 5000, .v4 10 0 0 1 9000) := by
  decide

/-- C7 (amended): a received datagram whose first 4 bytes differ from the
magic constant `"maid"` elicits no reply: the loop discards it and
continues.  The received length, however, is never checked: a datagram
shorter than 20 bytes is interpreted together with the residual bytes of
the receive buffer and can elicit a reply (see the counterexample). -/
theorem listener_discards_bad_magic (guid : List Nat) (tcp_port : Nat)
    (buffer : List Nat) (d : Datagram) (rest : List Datagram)
    (hbuf : buffer.length = 20) (h4 : 4 ≤ d.payload.length)
    (hmagic : d.payload.take 4 ≠ MAGIC) :
    run_listener guid tcp_port buffer (d :: rest) =
      run_listener guid tcp_port (recv_into buffer d.payload) rest := by
  have hm : (recv_into buffer d.payload).take 4 ≠ MAGIC := by
    rw [recv_into_take_four _ _ hbuf h4]
    exact hmagic
  simp [run_listener, hm]

/-- C7 witness: a datagram starting `[9, 9, 9, 9]` is discarded. -/
theorem listener_discards_bad_magic_witness :
    (List.replicate 20 0 : List Nat).length = 20 ∧
    4 ≤ (Datagram.mk [9, 9, 9, 9] (.v4 10 0 0 1 9000)).payload.length ∧
    (Datagram.mk [9, 9, 9, 9] (.v4 10 0 0 1 9000)).payload.take 4 ≠ MAGIC ∧
    run_listener (List.replicate 16 1) 5000 (List.replicate 20 0)
      [Datagram.mk [9, 9, 9, 9] (.v4 10 0 0 1 9000)] =
      run_listener (List.replicate 16 1) 5000
        (recv_into (List.replicate 20 0) [9, 9, 9, 9]) [] :=
  ⟨by decide, by decide, by decide,
   listener_discards_bad_magic _ _ _ _ _ (by decide) (by decide) (by decide)⟩

/-- C8: the ping packet sent by `seek_peers` is exactly 20 bytes: the
4-byte magic constant `"maid"` followed by the 16-byte GUID to avoid, or
by 16 zero bytes when no GUID is supplied. -/
theorem ping_packet_layout (g : Option (List Nat))
    (hg : ∀ x, g = some x → x.length = 16) :
    (build_ping g).length = 20 ∧ (build_ping g).take 4 = MAGIC ∧
    (build_ping g).drop 4 = g.getD (List.replicate 16 0) := by
  cases g with
  | none => decide
  | some x =>
      have hx : x.length = 16 := hg x rfl
      refine ⟨?_, ?_, ?_⟩
      · simp [build_ping, MAGIC, GUID_SIZE, hx]
      · simp [build_ping, MAGIC]
      · simp [build_ping, MAGIC]

/-- C8 witness: the ping packet for the GUID `[9, …, 9]`. -/
theorem ping_packet_layout_witness :
    (build_ping (some (List.replicate 16 9))).length = 20 ∧
    (build_ping (some (List.replicate 16 9))).take 4 = MAGIC ∧
    (build_ping (some (List.replicate 16 9))).drop 4 =
      (some (List.replicate 16 9)).getD (List.replicate 16 0) :=
  ping_packet_layout (some (List.replicate 16 9))
    (fun x hx => by injection hx with h; subst h; decide)

/-- C9: a `seek_peers` call collects at most one discovered socket address,
however many reply datagrams arrive, because the receiver task performs
exactly one blocking receive before terminating. -/
theorem seek_collects_at_most_one (replies : List Datagram) :
    (seek_collected replies).length ≤ 1 := by
  cases replies <;> simp [seek_collected]

/-- C10: for every IPv4 socket address, `serialise_address` leaves bytes 7
through 26 equal to zero: the buffer is zero-initialised and the IPv4 branch
writes only bytes 1 through 6. -/
theorem serialise_address_v4_trailing_zeros (o1 o2 o3 o4 port : Nat) :
    (serialise_address (.v4 o1 o2 o3 o4 port)).drop 7 = List.replicate 20 0 := by
  rfl

end Beacon
